import Mathlib

/-! # Rook `CephBlockPool` admission validation

A shallow embedding of `pkg/apis/ceph.rook.io/v1/pool.go` and the properties of its
create/update validators.

Conventions of the embedding

* A Go `error` is `Option GoError`; `none` is `nil`.  An error value records the format
  string handed to `errors.New` / `errors.Errorf` together with the arguments, so no
  string formatting has to be modelled.
* Go `uint` fields are natural numbers.  The validators only compare them with the
  literals `0`, `1`, `2`, so no wrap-around can occur.
* Go `float64` is `Float64` below: NaN, the two infinities, or a finite number.  Its
  comparison operators follow IEEE 754 as Go does: every ordered comparison with NaN is
  false, and `-0 == 0`.
* Logging calls have no effect on the result and are left out.
-/

namespace Rook

/-! ## Go values -/

/-- Modelled from the spec: the Go type `float64` of `targetSizeRatio` (its declaration is
not part of `pool.go`).  A value is NaN, an infinity, or a finite number; both zeros are
`finite 0`, which is sound because the program only compares. -/
inductive Float64 where
  | nan
  | negInf
  | finite (q : ℚ)
  | posInf
deriving DecidableEq

namespace Float64

/-- The literal `0`. -/
def zero : Float64 := finite 0

/-- Go `a < b` on `float64`. -/
def lt : Float64 → Float64 → Bool
  | nan, _ => false
  | _, nan => false
  | negInf, negInf => false
  | negInf, _ => true
  | finite _, negInf => false
  | finite a, finite b => decide (a < b)
  | finite _, posInf => true
  | posInf, _ => false

/-- Go `a == b` on `float64` (NaN is not equal to itself). -/
def eq : Float64 → Float64 → Bool
  | negInf, negInf => true
  | finite a, finite b => decide (a = b)
  | posInf, posInf => true
  | _, _ => false

/-- Go `a > b`. -/
def gt (a b : Float64) : Bool := lt b a

/-- Go `a <= b`. -/
def le (a b : Float64) : Bool := lt a b || eq a b

/-- Go `a != b`. -/
def ne (a b : Float64) : Bool := !eq a b

/-- A value that takes part in the order, that is, anything but NaN. -/
def isOrdered : Float64 → Bool
  | nan => false
  | _ => true

end Float64

/-- A Go error value: the format string and the arguments it was built from. -/
structure GoError where
  format : String
  args : List String
deriving DecidableEq

/-- Go `errors.New(msg)`. -/
def errors.New (msg : String) : GoError := ⟨msg, []⟩

/-- Go `errors.Errorf(format, args...)`. -/
def errors.Errorf (format : String) (args : List String) : GoError := ⟨format, args⟩

/-- Go `admission.Warnings`, a slice of strings; `nil` is the empty list. -/
abbrev admission.Warnings := List String

/-! ## Data model -/

/-- Modelled from the spec: `HybridStorageSpec`, declared outside `pool.go`.  Only its
presence is ever inspected. -/
structure HybridStorageSpec where
deriving DecidableEq

/-- Modelled from the spec: `ReplicatedSpec` with `size: uint`, `targetSizeRatio: float`
and the optional `hybridStorage`; the Go declaration is outside `pool.go`. -/
structure ReplicatedSpec where
  Size : Nat
  TargetSizeRatio : Float64
  HybridStorage : Option HybridStorageSpec
deriving DecidableEq

/-- Modelled from the spec: `ErasureCodedSpec` with `codingChunks: uint`,
`dataChunks: uint`, `algorithm: string`; the Go declaration is outside `pool.go`. -/
structure ErasureCodedSpec where
  CodingChunks : Nat
  DataChunks : Nat
  Algorithm : String
deriving DecidableEq

/-- Modelled from the spec: a snapshot-schedule descriptor; only the length of the
sequence is ever inspected. -/
structure SnapshotScheduleSpec where
deriving DecidableEq

/-- Modelled from the spec: `MirroringSpec`, which "contains a sequence of
snapshot-schedule descriptors". -/
structure MirroringSpec where
  SnapshotSchedules : List SnapshotScheduleSpec
deriving DecidableEq

/-- Modelled from the spec: `PoolSpec`, the redundancy description of a pool (the Go
declaration is outside `pool.go`). -/
structure PoolSpec where
  Replicated : ReplicatedSpec
  ErasureCoded : ErasureCodedSpec
  CompressionMode : String
  Mirroring : MirroringSpec
deriving DecidableEq

/-- Modelled from the spec: `NamedPoolSpec`, a name together with an embedded `PoolSpec`
(Go struct embedding, so the fields of `PoolSpec` are promoted). -/
structure NamedPoolSpec extends PoolSpec where
  Name : String
deriving DecidableEq

/-- Modelled from the spec: the `Spec` field of a `CephBlockPool`: the spec-level name
override together with an embedded `PoolSpec`. -/
structure NamedBlockPoolSpec extends PoolSpec where
  Name : String
deriving DecidableEq

/-- Modelled from the spec: the `CephBlockPool` resource: the owning resource's name
(`ObjectMeta.Name`, promoted to `p.Name`) and its `Spec`. -/
structure CephBlockPool where
  Name : String
  Spec : NamedBlockPoolSpec
deriving DecidableEq

/-! ## The functions of `pool.go` -/

/-- Go `(p *PoolSpec) IsReplicated`. -/
def PoolSpec.IsReplicated (p : PoolSpec) : Bool :=
  decide (p.Replicated.Size > 0)

/-- Go `(p *PoolSpec) IsErasureCoded`. -/
def PoolSpec.IsErasureCoded (p : PoolSpec) : Bool :=
  decide (p.ErasureCoded.CodingChunks > 0) || decide (p.ErasureCoded.DataChunks > 0)

/-- Go `(p *PoolSpec) IsHybridStoragePool`. -/
def PoolSpec.IsHybridStoragePool (p : PoolSpec) : Bool :=
  p.Replicated.HybridStorage.isSome

/-- Go `(p *PoolSpec) IsCompressionEnabled`. -/
def PoolSpec.IsCompressionEnabled (p : PoolSpec) : Bool :=
  decide (p.CompressionMode ≠ "")

/-- Go `(p *ReplicatedSpec) IsTargetRatioEnabled`. -/
def ReplicatedSpec.IsTargetRatioEnabled (p : ReplicatedSpec) : Bool :=
  Float64.ne p.TargetSizeRatio Float64.zero

/-- Go `(p *MirroringSpec) SnapshotSchedulesEnabled`. -/
def MirroringSpec.SnapshotSchedulesEnabled (p : MirroringSpec) : Bool :=
  decide (p.SnapshotSchedules.length > 0)

/-- Go `validatePoolSpec`: validate any `NamedPoolSpec`. -/
def validatePoolSpec (ps : NamedPoolSpec) : Option GoError := Id.run do
  -- Checks if either ErasureCoded or Replicated fields are set
  if ps.ErasureCoded.CodingChunks ≤ 0 ∧ ps.ErasureCoded.DataChunks ≤ 0
      ∧ Float64.le ps.Replicated.TargetSizeRatio Float64.zero = true
      ∧ ps.Replicated.Size ≤ 0 then
    return some (errors.New
      "invalid pool spec: either of erasurecoded or replicated fields should be set")
  -- Both can't be populated at same time.
  if ps.ErasureCoded.CodingChunks > 0 ∨ ps.ErasureCoded.DataChunks > 0
      ∨ ps.ErasureCoded.Algorithm ≠ "" then
    if ps.Replicated.Size > 0
        ∨ Float64.gt ps.Replicated.TargetSizeRatio Float64.zero = true then
      return some (errors.New
        "invalid pool spec: both erasurecoded and replicated fields cannot be set at the same time")
  if ps.Replicated.Size = 0
      ∧ Float64.eq ps.Replicated.TargetSizeRatio Float64.zero = true then
    -- Check if datachunks is set and has value less than 2.
    if ps.ErasureCoded.DataChunks < 2 ∧ ps.ErasureCoded.DataChunks ≠ 0 then
      return some (errors.New
        "invalid pool spec: erasurecoded.datachunks needs minimum value of 2")
    -- Check if codingchunks is set and has value less than 1.
    if ps.ErasureCoded.CodingChunks < 1 ∧ ps.ErasureCoded.CodingChunks ≠ 0 then
      return some (errors.New
        "invalid pool spec: erasurecoded.codingchunks needs minimum value of 1")
  return none

/-- Go `(p *CephBlockPool) ToNamedPoolSpec`: the spec-level name if it is not empty,
otherwise the name of the pool resource. -/
def CephBlockPool.ToNamedPoolSpec (p : CephBlockPool) : NamedPoolSpec :=
  let name := p.Spec.Name
  let name := if name = "" then p.Name else name
  { Name := name, toPoolSpec := p.Spec.toPoolSpec }

/-- Go `ValidateCephBlockPool`: validates specifically a `CephBlockPool` spec. -/
def ValidateCephBlockPool (p : CephBlockPool) : Option GoError := Id.run do
  if p.Spec.Name = "device_health_metrics" ∨ p.Spec.Name = ".mgr" ∨ p.Spec.Name = ".nfs" then
    if p.Spec.IsErasureCoded = true then
      return some (errors.Errorf
        "invalid CephBlockPool spec: ceph built-in pool %q cannot be erasure coded" [p.Name])
  return validatePoolSpec p.ToNamedPoolSpec

/-- Go `(p *CephBlockPool) ValidateCreate`. -/
def CephBlockPool.ValidateCreate (p : CephBlockPool) : admission.Warnings × Option GoError :=
  match ValidateCephBlockPool p with
  | some err => ([], some err)
  | none => ([], none)

/-- Go `(p *CephBlockPool) ValidateUpdate`; `ocbp` is the previous object after the type
assertion `old.(*CephBlockPool)`. -/
def CephBlockPool.ValidateUpdate (p ocbp : CephBlockPool) :
    admission.Warnings × Option GoError := Id.run do
  match ValidateCephBlockPool p with
  | some err => return ([], some err)
  | none => pure ()
  if ocbp.Spec.Name ≠ p.Spec.Name then
    return ([], some (errors.New "invalid update: pool name cannot be changed"))
  if p.Spec.ErasureCoded.CodingChunks > 0 ∨ p.Spec.ErasureCoded.DataChunks > 0
      ∨ p.Spec.ErasureCoded.Algorithm ≠ "" then
    if ocbp.Spec.Replicated.Size > 0
        ∨ Float64.gt ocbp.Spec.Replicated.TargetSizeRatio Float64.zero = true then
      return ([], some (errors.New
        "invalid update: replicated field is set already in previous object. cannot be changed to use erasurecoded"))
  if p.Spec.Replicated.Size > 0
      ∨ Float64.gt p.Spec.Replicated.TargetSizeRatio Float64.zero = true then
    if ocbp.Spec.ErasureCoded.CodingChunks > 0 ∨ ocbp.Spec.ErasureCoded.DataChunks > 0
        ∨ ocbp.Spec.ErasureCoded.Algorithm ≠ "" then
      return ([], some (errors.New
        "invalid update: erasurecoded field is set already in previous object. cannot be changed to use replicated"))
  return ([], none)

/-- Go `(p *CephBlockPool) ValidateDelete`. -/
def CephBlockPool.ValidateDelete (_p : CephBlockPool) : admission.Warnings × Option GoError :=
  ([], none)

/-! ## Names for the error values and example pools -/

/-- `ReservedPoolErasureCoded`: the error built by `errors.Errorf` in
`ValidateCephBlockPool`; its argument is the name of the pool resource. -/
def ErrReservedPoolErasureCoded (crName : String) : GoError :=
  errors.Errorf
    "invalid CephBlockPool spec: ceph built-in pool %q cannot be erasure coded" [crName]

/-- `NoStrategyConfigured`: the first error of `validatePoolSpec`. -/
def ErrNoStrategyConfigured : GoError :=
  errors.New "invalid pool spec: either of erasurecoded or replicated fields should be set"

/-- `BothStrategiesConfigured`: the second error of `validatePoolSpec`. -/
def ErrBothStrategiesConfigured : GoError :=
  errors.New
    "invalid pool spec: both erasurecoded and replicated fields cannot be set at the same time"

/-- `DataChunksTooLow`: the third error of `validatePoolSpec`. -/
def ErrDataChunksTooLow : GoError :=
  errors.New "invalid pool spec: erasurecoded.datachunks needs minimum value of 2"

/-- `CodingChunksTooLow`: the fourth error of `validatePoolSpec`. -/
def ErrCodingChunksTooLow : GoError :=
  errors.New "invalid pool spec: erasurecoded.codingchunks needs minimum value of 1"

/-- `ImmutableNameChanged`: the first error of `ValidateUpdate`. -/
def ErrImmutableNameChanged : GoError :=
  errors.New "invalid update: pool name cannot be changed"

/-- `StrategyChangeForbidden`, replicated to erasure coded: the second error of
`ValidateUpdate`. -/
def ErrReplicatedToErasureCoded : GoError :=
  errors.New
    "invalid update: replicated field is set already in previous object. cannot be changed to use erasurecoded"

/-- `StrategyChangeForbidden`, erasure coded to replicated: the third error of
`ValidateUpdate`. -/
def ErrErasureCodedToReplicated : GoError :=
  errors.New
    "invalid update: erasurecoded field is set already in previous object. cannot be changed to use replicated"

/-- The name test of `ValidateCephBlockPool`: one of the built-in pool names. -/
def isBuiltinPoolName (name : String) : Prop :=
  name = "device_health_metrics" ∨ name = ".mgr" ∨ name = ".nfs"

instance (name : String) : Decidable (isBuiltinPoolName name) := by
  unfold isBuiltinPoolName; infer_instance

/-- A pool resource `crName` with spec-level name `specName`, replication `size` and
`tsr`, and erasure coding `cc` coding chunks, `dc` data chunks and algorithm `alg`;
compression and mirroring are left at their zero values. -/
def mkPool (crName specName : String) (size : Nat) (tsr : Float64) (cc dc : Nat)
    (alg : String) : CephBlockPool :=
  { Name := crName
    Spec :=
      { Name := specName
        Replicated := { Size := size, TargetSizeRatio := tsr, HybridStorage := none }
        ErasureCoded := { CodingChunks := cc, DataChunks := dc, Algorithm := alg }
        CompressionMode := ""
        Mirroring := { SnapshotSchedules := [] } } }

/-- The pool `pool1` replicated three times. -/
def replicatedPool1 : CephBlockPool := mkPool "pool1" "pool1" 3 Float64.zero 0 0 ""

/-- The pool `pool1` erasure coded with 4 data chunks and 2 coding chunks. -/
def erasureCodedPool1 : CephBlockPool := mkPool "pool1" "pool1" 0 Float64.zero 2 4 ""

/-- The pool `ecpool` erasure coded with 4 + 2 chunks and algorithm `jerasure`. -/
def ecpool : CephBlockPool := mkPool "ecpool" "ecpool" 0 Float64.zero 2 4 "jerasure"

/-- A pool with no field set. -/
def emptyPool : CephBlockPool := mkPool "pool1" "pool1" 0 Float64.zero 0 0 ""

/-- A pool whose only set field is a target size ratio that is NaN. -/
def nanRatioPool : CephBlockPool := mkPool "pool1" "pool1" 0 Float64.nan 0 0 ""

/-- The built-in pool `.mgr` with both replication and erasure coding set. -/
def mgrBothPool : CephBlockPool := mkPool "builtin-mgr" ".mgr" 3 Float64.zero 2 4 ""

/-- A non built-in pool with both replication and erasure coding set. -/
def bothPool : CephBlockPool := mkPool "pool1" "pool1" 3 Float64.zero 2 4 ""

/-- The built-in pool `.mgr` erasure coded with 4 + 2 chunks. -/
def mgrErasureCodedPool : CephBlockPool := mkPool "builtin-mgr" ".mgr" 0 Float64.zero 2 4 ""

/-- The built-in pool `.mgr` replicated three times. -/
def mgrReplicatedPool : CephBlockPool := mkPool "builtin-mgr" ".mgr" 3 Float64.zero 0 0 ""

/-- A pool resource that is itself called `.mgr`, without a spec-level name, erasure
coded with 4 + 2 chunks. -/
def mgrResourcePool : CephBlockPool := mkPool ".mgr" "" 0 Float64.zero 2 4 ""

/-- An erasure-coded pool with a single data chunk and target size ratio `-1`. -/
def negRatioPool : CephBlockPool := mkPool "pool1" "pool1" 0 (Float64.finite (-1)) 0 1 ""

/-- An erasure-coded pool with a single data chunk and nothing else set. -/
def oneDataChunkPool : CephBlockPool := mkPool "pool1" "pool1" 0 Float64.zero 0 1 ""

/-- The built-in pool `.mgr` with a single data chunk. -/
def mgrOneDataChunkPool : CephBlockPool := mkPool "builtin-mgr" ".mgr" 0 Float64.zero 0 1 ""

/-- The resource `pool1` without a spec-level name, replicated three times. -/
def unnamedPool1 : CephBlockPool := mkPool "pool1" "" 3 Float64.zero 0 0 ""

/-- The pool `pool2` replicated three times. -/
def replicatedPool2 : CephBlockPool := mkPool "pool2" "pool2" 3 Float64.zero 0 0 ""

/-- The pool `pool1` replicated twice. -/
def replicatedPool1Size2 : CephBlockPool := mkPool "pool1" "pool1" 2 Float64.zero 0 0 ""

/-- The pool `pool1` erasure coded with 5 data chunks and 2 coding chunks. -/
def erasureCodedPool1Wide : CephBlockPool := mkPool "pool1" "pool1" 0 Float64.zero 2 5 ""

/-- A pool whose only set field is the target size ratio `1`. -/
def ratioOnlyPool : CephBlockPool := mkPool "pool1" "pool1" 0 (Float64.finite 1) 0 0 ""

/-! ## The checks of `validatePoolSpec` in any order -/

/-- The three top-level `if` statements of `validatePoolSpec`, in source order. -/
inductive PoolCheck where
  | noStrategy
  | bothStrategies
  | chunkMinimum
deriving DecidableEq

/-- One top-level `if` statement of `validatePoolSpec` on its own: the error it returns,
or `none` when control falls through it. -/
def PoolCheck.run : PoolCheck → NamedPoolSpec → Option GoError
  | .noStrategy, ps =>
    if ps.ErasureCoded.CodingChunks ≤ 0 ∧ ps.ErasureCoded.DataChunks ≤ 0
        ∧ Float64.le ps.Replicated.TargetSizeRatio Float64.zero = true
        ∧ ps.Replicated.Size ≤ 0 then
      some (errors.New
        "invalid pool spec: either of erasurecoded or replicated fields should be set")
    else none
  | .bothStrategies, ps =>
    if ps.ErasureCoded.CodingChunks > 0 ∨ ps.ErasureCoded.DataChunks > 0
        ∨ ps.ErasureCoded.Algorithm ≠ "" then
      if ps.Replicated.Size > 0
          ∨ Float64.gt ps.Replicated.TargetSizeRatio Float64.zero = true then
        some (errors.New
          "invalid pool spec: both erasurecoded and replicated fields cannot be set at the same time")
      else none
    else none
  | .chunkMinimum, ps =>
    if ps.Replicated.Size = 0
        ∧ Float64.eq ps.Replicated.TargetSizeRatio Float64.zero = true then
      if ps.ErasureCoded.DataChunks < 2 ∧ ps.ErasureCoded.DataChunks ≠ 0 then
        some (errors.New
          "invalid pool spec: erasurecoded.datachunks needs minimum value of 2")
      else if ps.ErasureCoded.CodingChunks < 1 ∧ ps.ErasureCoded.CodingChunks ≠ 0 then
        some (errors.New
          "invalid pool spec: erasurecoded.codingchunks needs minimum value of 1")
      else none
    else none

/-- The variant of `validatePoolSpec` that evaluates the checks in the given order and
returns the first error. -/
def validatePoolSpecInOrder : List PoolCheck → NamedPoolSpec → Option GoError
  | [], _ => none
  | c :: rest, ps =>
    match c.run ps with
    | some err => some err
    | none => validatePoolSpecInOrder rest ps

/-! ## Comparison with zero -/

theorem Float64.le_zero_of_not_gt (x : Float64) (ho : x.isOrdered = true)
    (h : Float64.gt x Float64.zero = false) : Float64.le x Float64.zero = true := by
  cases x <;>
    simp_all [Float64.le, Float64.lt, Float64.eq, Float64.gt, Float64.zero, Float64.isOrdered]
  exact lt_or_eq_of_le h

theorem Float64.le_zero_false_of_gt (x : Float64)
    (h : Float64.gt x Float64.zero = true) : Float64.le x Float64.zero = false := by
  cases x <;> simp_all [Float64.le, Float64.lt, Float64.eq, Float64.gt, Float64.zero]
  exact ⟨le_of_lt h, ne_of_gt h⟩

theorem Float64.le_zero_of_eq (x : Float64)
    (h : Float64.eq x Float64.zero = true) : Float64.le x Float64.zero = true := by
  simp [Float64.le, h]

theorem Float64.gt_zero_false_of_eq (x : Float64)
    (h : Float64.eq x Float64.zero = true) : Float64.gt x Float64.zero = false := by
  cases x <;> simp_all [Float64.lt, Float64.eq, Float64.gt, Float64.zero]

/-! ## The validators as decision chains -/

/-- The checks of `validatePoolSpec` in order, with the unsigned tests simplified:
`n <= 0` is `n = 0`, `n < 2 && n != 0` is `n = 1`, and `n < 1 && n != 0` never holds. -/
theorem validatePoolSpec_eq (ps : NamedPoolSpec) : validatePoolSpec ps =
    if ps.ErasureCoded.CodingChunks = 0 ∧ ps.ErasureCoded.DataChunks = 0
        ∧ Float64.le ps.Replicated.TargetSizeRatio Float64.zero = true
        ∧ ps.Replicated.Size = 0 then
      some ErrNoStrategyConfigured
    else if (ps.ErasureCoded.CodingChunks > 0 ∨ ps.ErasureCoded.DataChunks > 0
        ∨ ps.ErasureCoded.Algorithm ≠ "")
        ∧ (ps.Replicated.Size > 0
          ∨ Float64.gt ps.Replicated.TargetSizeRatio Float64.zero = true) then
      some ErrBothStrategiesConfigured
    else if ps.Replicated.Size = 0
        ∧ Float64.eq ps.Replicated.TargetSizeRatio Float64.zero = true
        ∧ ps.ErasureCoded.DataChunks = 1 then
      some ErrDataChunksTooLow
    else none := by
  simp only [validatePoolSpec, Id.run, pure, bind, ErrNoStrategyConfigured,
    ErrBothStrategiesConfigured, ErrDataChunksTooLow]
  split_ifs <;>
    first
    | rfl
    | (exfalso; omega)
    | (exfalso; simp_all; done)
    | (exfalso; simp_all; omega)

/-- The built-in pool check of `ValidateCephBlockPool`, then `validatePoolSpec`. -/
theorem ValidateCephBlockPool_eq (p : CephBlockPool) : ValidateCephBlockPool p =
    if isBuiltinPoolName p.Spec.Name
        ∧ (p.Spec.ErasureCoded.CodingChunks > 0 ∨ p.Spec.ErasureCoded.DataChunks > 0) then
      some (ErrReservedPoolErasureCoded p.Name)
    else validatePoolSpec p.ToNamedPoolSpec := by
  simp only [ValidateCephBlockPool, Id.run, pure, bind, PoolSpec.IsErasureCoded,
    Bool.or_eq_true, decide_eq_true_eq, isBuiltinPoolName, ErrReservedPoolErasureCoded,
    ite_and]

/-- The warnings of `ValidateCreate` are always nil and its error is that of
`ValidateCephBlockPool`. -/
theorem ValidateCreate_eq (p : CephBlockPool) :
    p.ValidateCreate = ([], ValidateCephBlockPool p) := by
  unfold CephBlockPool.ValidateCreate
  cases ValidateCephBlockPool p <;> rfl

/-- The checks of `ValidateUpdate` in order. -/
theorem ValidateUpdate_eq (p ocbp : CephBlockPool) : p.ValidateUpdate ocbp =
    match ValidateCephBlockPool p with
    | some err => ([], some err)
    | none =>
      if ocbp.Spec.Name ≠ p.Spec.Name then ([], some ErrImmutableNameChanged)
      else if (p.Spec.ErasureCoded.CodingChunks > 0 ∨ p.Spec.ErasureCoded.DataChunks > 0
          ∨ p.Spec.ErasureCoded.Algorithm ≠ "")
          ∧ (ocbp.Spec.Replicated.Size > 0
            ∨ Float64.gt ocbp.Spec.Replicated.TargetSizeRatio Float64.zero = true) then
        ([], some ErrReplicatedToErasureCoded)
      else if (p.Spec.Replicated.Size > 0
          ∨ Float64.gt p.Spec.Replicated.TargetSizeRatio Float64.zero = true)
          ∧ (ocbp.Spec.ErasureCoded.CodingChunks > 0 ∨ ocbp.Spec.ErasureCoded.DataChunks > 0
            ∨ ocbp.Spec.ErasureCoded.Algorithm ≠ "") then
        ([], some ErrErasureCodedToReplicated)
      else ([], none) := by
  simp only [CephBlockPool.ValidateUpdate, Id.run, pure, bind, ErrImmutableNameChanged,
    ErrReplicatedToErasureCoded, ErrErasureCodedToReplicated]
  cases ValidateCephBlockPool p with
  | some err => simp only []
  | none => simp only [ite_and]

/-- The error of `ValidateCreate` as one chain over the fields of the pool. -/
theorem ValidateCreate_chain (p : CephBlockPool) : p.ValidateCreate = ([],
    if isBuiltinPoolName p.Spec.Name
        ∧ (p.Spec.ErasureCoded.CodingChunks > 0 ∨ p.Spec.ErasureCoded.DataChunks > 0) then
      some (ErrReservedPoolErasureCoded p.Name)
    else if p.Spec.ErasureCoded.CodingChunks = 0 ∧ p.Spec.ErasureCoded.DataChunks = 0
        ∧ Float64.le p.Spec.Replicated.TargetSizeRatio Float64.zero = true
        ∧ p.Spec.Replicated.Size = 0 then
      some ErrNoStrategyConfigured
    else if (p.Spec.ErasureCoded.CodingChunks > 0 ∨ p.Spec.ErasureCoded.DataChunks > 0
        ∨ p.Spec.ErasureCoded.Algorithm ≠ "")
        ∧ (p.Spec.Replicated.Size > 0
          ∨ Float64.gt p.Spec.Replicated.TargetSizeRatio Float64.zero = true) then
      some ErrBothStrategiesConfigured
    else if p.Spec.Replicated.Size = 0
        ∧ Float64.eq p.Spec.Replicated.TargetSizeRatio Float64.zero = true
        ∧ p.Spec.ErasureCoded.DataChunks = 1 then
      some ErrDataChunksTooLow
    else none) := by
  rw [ValidateCreate_eq, ValidateCephBlockPool_eq, validatePoolSpec_eq]
  rfl

/-- An accepted pool never has an erasure-coding field (chunks or algorithm) set
together with replication. -/
theorem not_both_of_accepted (p : CephBlockPool) (hacc : p.ValidateCreate.2 = none) :
    ¬ ((p.Spec.ErasureCoded.CodingChunks > 0 ∨ p.Spec.ErasureCoded.DataChunks > 0
        ∨ p.Spec.ErasureCoded.Algorithm ≠ "")
      ∧ (p.Spec.Replicated.Size > 0
        ∨ Float64.gt p.Spec.Replicated.TargetSizeRatio Float64.zero = true)) := by
  rw [ValidateCreate_chain] at hacc
  simp only [] at hacc
  intro hboth
  split_ifs at hacc

/-! ## Creation -/

/-- C1: every pool that `ValidateCreate` accepts, with a target size ratio that is an
ordered value (negative ones included), has exactly one redundancy strategy configured:
replication (`Size > 0` or `TargetSizeRatio > 0`) or erasure coding (`CodingChunks > 0`
or `DataChunks > 0`), never both and never neither. -/
theorem accepted_exactly_one_strategy (p : CephBlockPool)
    (hord : p.Spec.Replicated.TargetSizeRatio.isOrdered = true)
    (hacc : p.ValidateCreate.2 = none) :
    Xor' (p.Spec.Replicated.Size > 0
        ∨ Float64.gt p.Spec.Replicated.TargetSizeRatio Float64.zero = true)
      (p.Spec.ErasureCoded.CodingChunks > 0 ∨ p.Spec.ErasureCoded.DataChunks > 0) := by
  rw [ValidateCreate_chain] at hacc
  simp only [] at hacc
  unfold Xor'
  by_cases hrep : p.Spec.Replicated.Size > 0
      ∨ Float64.gt p.Spec.Replicated.TargetSizeRatio Float64.zero = true
  · left
    refine ⟨hrep, fun hec => ?_⟩
    split_ifs at hacc
    tauto
  · right
    have hsize : p.Spec.Replicated.Size = 0 := by omega
    have hgt : Float64.gt p.Spec.Replicated.TargetSizeRatio Float64.zero = false := by
      cases hg : Float64.gt p.Spec.Replicated.TargetSizeRatio Float64.zero
      · rfl
      · exact absurd (Or.inr hg) hrep
    have hle := Float64.le_zero_of_not_gt _ hord hgt
    refine ⟨?_, hrep⟩
    by_contra hec
    have hcc : p.Spec.ErasureCoded.CodingChunks = 0 := by omega
    have hdc : p.Spec.ErasureCoded.DataChunks = 0 := by omega
    split_ifs at hacc
    tauto

/-- C1, at the pool `pool1` replicated three times. -/
theorem accepted_exactly_one_strategy_witness :
    replicatedPool1.Spec.Replicated.TargetSizeRatio.isOrdered = true
      ∧ replicatedPool1.ValidateCreate.2 = none
      ∧ Xor' (replicatedPool1.Spec.Replicated.Size > 0
          ∨ Float64.gt replicatedPool1.Spec.Replicated.TargetSizeRatio Float64.zero = true)
        (replicatedPool1.Spec.ErasureCoded.CodingChunks > 0
          ∨ replicatedPool1.Spec.ErasureCoded.DataChunks > 0) :=
  ⟨by decide, by decide, accepted_exactly_one_strategy replicatedPool1 (by decide) (by decide)⟩

/-- C2, as stated, fails when the target size ratio is NaN: the pool has neither
strategy configured (`NaN > 0` is false), yet `NaN <= 0` is false as well, so the first
check of `validatePoolSpec` does not fire and the pool is accepted. -/
theorem no_strategy_nan_ratio_accepted :
    nanRatioPool.Spec.ErasureCoded.CodingChunks = 0
      ∧ nanRatioPool.Spec.ErasureCoded.DataChunks = 0
      ∧ ¬ (nanRatioPool.Spec.Replicated.Size > 0)
      ∧ ¬ (Float64.gt nanRatioPool.Spec.Replicated.TargetSizeRatio Float64.zero = true)
      ∧ nanRatioPool.ValidateCreate = ([], none) := by
  decide

/-- C2, amended: every pool with no erasure coding configured (`CodingChunks = 0` and
`DataChunks = 0`), no replication configured (not `Size > 0` and not
`TargetSizeRatio > 0`) and a target size ratio that is not NaN is rejected by
`ValidateCreate` with `NoStrategyConfigured`, whatever its names, algorithm and other
fields. -/
theorem no_strategy_rejected (p : CephBlockPool)
    (hcc : p.Spec.ErasureCoded.CodingChunks = 0)
    (hdc : p.Spec.ErasureCoded.DataChunks = 0)
    (hsize : ¬ (p.Spec.Replicated.Size > 0))
    (hratio : ¬ (Float64.gt p.Spec.Replicated.TargetSizeRatio Float64.zero = true))
    (hord : p.Spec.Replicated.TargetSizeRatio.isOrdered = true) :
    p.ValidateCreate = ([], some ErrNoStrategyConfigured) := by
  have hgt : Float64.gt p.Spec.Replicated.TargetSizeRatio Float64.zero = false := by
    simpa using hratio
  have hle := Float64.le_zero_of_not_gt _ hord hgt
  have hs : p.Spec.Replicated.Size = 0 := by omega
  rw [ValidateCreate_chain]
  rw [if_neg (by omega), if_pos ⟨hcc, hdc, hle, hs⟩]

/-- C2 amended, at the pool with no field set. -/
theorem no_strategy_rejected_witness :
    emptyPool.ValidateCreate = ([], some ErrNoStrategyConfigured) :=
  no_strategy_rejected emptyPool (by decide) (by decide) (by decide) (by decide) (by decide)

/-- C3, as stated, fails for a built-in pool: `.mgr` with both strategies configured is
rejected with `ReservedPoolErasureCoded`, not with `BothStrategiesConfigured`. -/
theorem both_strategies_builtin_pool :
    (mgrBothPool.Spec.ErasureCoded.CodingChunks > 0
        ∨ mgrBothPool.Spec.ErasureCoded.DataChunks > 0)
      ∧ (mgrBothPool.Spec.Replicated.Size > 0
        ∨ Float64.gt mgrBothPool.Spec.Replicated.TargetSizeRatio Float64.zero = true)
      ∧ mgrBothPool.ValidateCreate = ([], some (ErrReservedPoolErasureCoded "builtin-mgr"))
      ∧ mgrBothPool.ValidateCreate ≠ ([], some ErrBothStrategiesConfigured) := by
  decide

/-- C3, amended: every pool whose spec-level name is not a built-in pool name and which
has both erasure coding (`CodingChunks > 0` or `DataChunks > 0`) and replication
(`Size > 0` or `TargetSizeRatio > 0`) configured is rejected by `ValidateCreate` with
`BothStrategiesConfigured`. -/
theorem both_strategies_rejected (p : CephBlockPool)
    (hname : ¬ isBuiltinPoolName p.Spec.Name)
    (hec : p.Spec.ErasureCoded.CodingChunks > 0 ∨ p.Spec.ErasureCoded.DataChunks > 0)
    (hrep : p.Spec.Replicated.Size > 0
      ∨ Float64.gt p.Spec.Replicated.TargetSizeRatio Float64.zero = true) :
    p.ValidateCreate = ([], some ErrBothStrategiesConfigured) := by
  rw [ValidateCreate_chain]
  rw [if_neg (fun h => hname h.1), if_neg (by omega), if_pos ⟨by tauto, hrep⟩]

/-- C3 amended, at a non built-in pool with size 3 and 4 + 2 chunks. -/
theorem both_strategies_rejected_witness :
    bothPool.ValidateCreate = ([], some ErrBothStrategiesConfigured) :=
  both_strategies_rejected bothPool (by decide) (by decide) (by decide)

/-- C4: every pool whose spec-level name is `device_health_metrics`, `.mgr` or `.nfs`
and which is erasure coded (`CodingChunks > 0` or `DataChunks > 0`) is rejected by
`ValidateCreate` with `ReservedPoolErasureCoded`, whatever its other fields: the
built-in pool check comes before every rule of `validatePoolSpec`. -/
theorem builtin_pool_erasure_coded_rejected (p : CephBlockPool)
    (hname : p.Spec.Name = "device_health_metrics" ∨ p.Spec.Name = ".mgr"
      ∨ p.Spec.Name = ".nfs")
    (hec : p.Spec.ErasureCoded.CodingChunks > 0 ∨ p.Spec.ErasureCoded.DataChunks > 0) :
    p.ValidateCreate = ([], some (ErrReservedPoolErasureCoded p.Name)) := by
  rw [ValidateCreate_chain, if_pos ⟨hname, hec⟩]

/-- C4, at `.mgr` with 4 + 2 chunks. -/
theorem builtin_pool_erasure_coded_rejected_witness :
    mgrErasureCodedPool.ValidateCreate
      = ([], some (ErrReservedPoolErasureCoded mgrErasureCodedPool.Name)) :=
  builtin_pool_erasure_coded_rejected mgrErasureCodedPool (by decide) (by decide)

/-- C5, as stated, fails on the effective name: a pool resource called `.mgr` that has
no spec-level name resolves to the name `.mgr`, is erasure coded, and is accepted. -/
theorem builtin_resource_name_accepted :
    mgrResourcePool.ValidateCreate = ([], none)
      ∧ mgrResourcePool.ToNamedPoolSpec.Name = ".mgr"
      ∧ mgrResourcePool.Spec.IsErasureCoded = true := by
  decide

/-- C5, amended: for every pool that `ValidateCreate` accepts, if its spec-level name
`Spec.Name` is `device_health_metrics`, `.mgr` or `.nfs`, then `IsErasureCoded` is
false. -/
theorem accepted_builtin_pool_not_erasure_coded (p : CephBlockPool)
    (hacc : p.ValidateCreate.2 = none)
    (hname : p.Spec.Name = "device_health_metrics" ∨ p.Spec.Name = ".mgr"
      ∨ p.Spec.Name = ".nfs") :
    p.Spec.IsErasureCoded = false := by
  rw [ValidateCreate_chain] at hacc
  simp only [] at hacc
  by_cases hec : p.Spec.ErasureCoded.CodingChunks > 0 ∨ p.Spec.ErasureCoded.DataChunks > 0
  · rw [if_pos ⟨hname, hec⟩] at hacc
    exact absurd hacc (by simp)
  · simp only [PoolSpec.IsErasureCoded]
    rw [Bool.or_eq_false_iff]
    constructor <;> simp <;> omega

/-- C5 amended, at `.mgr` replicated three times. -/
theorem accepted_builtin_pool_not_erasure_coded_witness :
    mgrReplicatedPool.ValidateCreate.2 = none
      ∧ mgrReplicatedPool.Spec.IsErasureCoded = false :=
  ⟨by decide, accepted_builtin_pool_not_erasure_coded mgrReplicatedPool (by decide)
    (by decide)⟩

/-- C6, evaluated where the code departs from it: an erasure-coded pool with a single
data chunk and the ordered target size ratio `-1` is accepted by `ValidateCreate`.  The
ratio is not positive, so replication is not configured, but it is not equal to zero
either, so the chunk checks of `validatePoolSpec` are skipped. -/
theorem single_data_chunk_negative_ratio_accepted :
    negRatioPool.Spec.Replicated.TargetSizeRatio.isOrdered = true
      ∧ negRatioPool.Spec.IsErasureCoded = true
      ∧ negRatioPool.Spec.ErasureCoded.DataChunks = 1
      ∧ negRatioPool.ValidateCreate = ([], none) := by
  decide

/-- C7, as stated, fails for a built-in pool: `.mgr` with a single data chunk and no
replication is rejected with `ReservedPoolErasureCoded`, not with `DataChunksTooLow`. -/
theorem single_data_chunk_builtin_pool :
    ¬ (mgrOneDataChunkPool.Spec.Replicated.Size > 0)
      ∧ ¬ (Float64.gt mgrOneDataChunkPool.Spec.Replicated.TargetSizeRatio Float64.zero
        = true)
      ∧ (mgrOneDataChunkPool.Spec.ErasureCoded.CodingChunks > 0
        ∨ mgrOneDataChunkPool.Spec.ErasureCoded.DataChunks > 0)
      ∧ mgrOneDataChunkPool.Spec.ErasureCoded.DataChunks = 1
      ∧ mgrOneDataChunkPool.ValidateCreate
        = ([], some (ErrReservedPoolErasureCoded "builtin-mgr"))
      ∧ mgrOneDataChunkPool.ValidateCreate ≠ ([], some ErrDataChunksTooLow) := by
  decide

/-- C7, amended: every pool whose spec-level name is not a built-in pool name, with
`Size = 0`, `TargetSizeRatio = 0` and `DataChunks = 1`, is rejected by `ValidateCreate`
with `DataChunksTooLow`; and no pool with `DataChunks = 0` or `DataChunks >= 2` gets
`DataChunksTooLow` from `ValidateCreate`. -/
theorem data_chunks_too_low (p : CephBlockPool) :
    (¬ isBuiltinPoolName p.Spec.Name → p.Spec.Replicated.Size = 0 →
        Float64.eq p.Spec.Replicated.TargetSizeRatio Float64.zero = true →
        p.Spec.ErasureCoded.DataChunks = 1 →
        p.ValidateCreate = ([], some ErrDataChunksTooLow))
      ∧ (p.Spec.ErasureCoded.DataChunks = 0 ∨ p.Spec.ErasureCoded.DataChunks ≥ 2 →
        p.ValidateCreate.2 ≠ some ErrDataChunksTooLow) := by
  rw [ValidateCreate_chain]
  constructor
  · intro hname hsize hratio hdc
    have hgt := Float64.gt_zero_false_of_eq _ hratio
    rw [if_neg (fun h => hname h.1), if_neg (by omega), if_neg, if_pos ⟨hsize, hratio, hdc⟩]
    rintro ⟨_, h | h⟩
    · omega
    · rw [hgt] at h
      exact absurd h (by decide)
  · intro hdc
    simp only []
    split_ifs with h1 h2 h3 h4
    · simp [ErrReservedPoolErasureCoded, ErrDataChunksTooLow, errors.Errorf, errors.New]
    · simp [ErrNoStrategyConfigured, ErrDataChunksTooLow, errors.New]
    · simp [ErrBothStrategiesConfigured, ErrDataChunksTooLow, errors.New]
    · omega
    · simp

/-- C7 amended, at a pool with a single data chunk and at `ecpool` with four. -/
theorem data_chunks_too_low_witness :
    oneDataChunkPool.ValidateCreate = ([], some ErrDataChunksTooLow)
      ∧ ecpool.ValidateCreate.2 ≠ some ErrDataChunksTooLow :=
  ⟨(data_chunks_too_low oneDataChunkPool).1 (by decide) (by decide) (by decide) (by decide),
    (data_chunks_too_low ecpool).2 (by decide)⟩

/-! ## Update -/

/-- C8: `ValidateUpdate` validates the new object in full first: whenever
`ValidateCreate` rejects the candidate with an error, `ValidateUpdate` rejects it with
the same error whatever the previous object is; hence whenever `ValidateUpdate` accepts,
`ValidateCreate` accepts the candidate. -/
theorem update_revalidates (p ocbp : CephBlockPool) :
    (∀ e : GoError, p.ValidateCreate.2 = some e → p.ValidateUpdate ocbp = ([], some e))
      ∧ ((p.ValidateUpdate ocbp).2 = none → p.ValidateCreate.2 = none) := by
  rw [ValidateCreate_eq, ValidateUpdate_eq]
  cases hv : ValidateCephBlockPool p with
  | none => simp
  | some err => simp

/-- C8, at the erasure-coded `.mgr` as candidate and at an unchanged `pool1`. -/
theorem update_revalidates_witness :
    mgrErasureCodedPool.ValidateUpdate replicatedPool1
        = ([], some (ErrReservedPoolErasureCoded "builtin-mgr"))
      ∧ replicatedPool1.ValidateCreate.2 = none :=
  ⟨(update_revalidates mgrErasureCodedPool replicatedPool1).1 _ (by decide),
    (update_revalidates replicatedPool1 replicatedPool1).2 (by decide)⟩

/-- C9, as stated, fails on the resolved name: the candidate spells out the name `pool1`
that the previous object got from its resource name, so both resolve to `pool1`, and
`ValidateUpdate` still rejects with `ImmutableNameChanged`. -/
theorem same_resolved_name_rejected :
    replicatedPool1.ValidateCreate.2 = none
      ∧ unnamedPool1.ToNamedPoolSpec.Name = replicatedPool1.ToNamedPoolSpec.Name
      ∧ replicatedPool1.ValidateUpdate unnamedPool1 = ([], some ErrImmutableNameChanged) := by
  decide

/-- C9, amended: for every candidate that passes create validation and every previous
pool, `ValidateUpdate` rejects with `ImmutableNameChanged` if and only if the spec-level
names `Spec.Name` of the two objects differ. -/
theorem name_change_rejected_iff (p ocbp : CephBlockPool)
    (hacc : p.ValidateCreate.2 = none) :
    p.ValidateUpdate ocbp = ([], some ErrImmutableNameChanged)
      ↔ ocbp.Spec.Name ≠ p.Spec.Name := by
  rw [ValidateCreate_eq] at hacc
  simp only [] at hacc
  rw [ValidateUpdate_eq, hacc]
  simp only []
  split_ifs with h1 h2 h3
  · simp [h1]
  · simp [h1, ErrReplicatedToErasureCoded, ErrImmutableNameChanged, errors.New]
  · simp [h1, ErrErasureCodedToReplicated, ErrImmutableNameChanged, errors.New]
  · simp [h1]

/-- C9 amended, at the update of `pool1` to `pool2`. -/
theorem name_change_rejected_iff_witness :
    replicatedPool2.ValidateUpdate replicatedPool1 = ([], some ErrImmutableNameChanged) :=
  (name_change_rejected_iff replicatedPool2 replicatedPool1 (by decide)).2 (by decide)

/-- C10: for every candidate that passes create validation and every previous pool with
the same spec-level name, (a) a candidate with erasure coding configured over a previous
pool with replication configured, and (b) a candidate with replication configured over a
previous pool with erasure coding configured, are both rejected by `ValidateUpdate` with
`StrategyChangeForbidden` (each direction has its own message). -/
theorem strategy_change_rejected (p ocbp : CephBlockPool)
    (hacc : p.ValidateCreate.2 = none)
    (hname : ocbp.Spec.Name = p.Spec.Name) :
    ((p.Spec.ErasureCoded.CodingChunks > 0 ∨ p.Spec.ErasureCoded.DataChunks > 0) →
        (ocbp.Spec.Replicated.Size > 0
          ∨ Float64.gt ocbp.Spec.Replicated.TargetSizeRatio Float64.zero = true) →
        p.ValidateUpdate ocbp = ([], some ErrReplicatedToErasureCoded))
      ∧ ((p.Spec.Replicated.Size > 0
          ∨ Float64.gt p.Spec.Replicated.TargetSizeRatio Float64.zero = true) →
        (ocbp.Spec.ErasureCoded.CodingChunks > 0
          ∨ ocbp.Spec.ErasureCoded.DataChunks > 0) →
        p.ValidateUpdate ocbp = ([], some ErrErasureCodedToReplicated)) := by
  have hnot := not_both_of_accepted p hacc
  rw [ValidateCreate_eq] at hacc
  simp only [] at hacc
  rw [ValidateUpdate_eq, hacc]
  constructor
  · intro hec hrep
    simp only []
    rw [if_neg (by simpa using hname), if_pos ⟨by tauto, hrep⟩]
  · intro hrep hec
    simp only []
    rw [if_neg (by simpa using hname), if_neg (fun h => hnot ⟨h.1, hrep⟩),
      if_pos ⟨hrep, by tauto⟩]

/-- C10, at the update of `pool1` from replicated size 3 to 4 + 2 chunks, and back. -/
theorem strategy_change_rejected_witness :
    erasureCodedPool1.ValidateUpdate replicatedPool1
        = ([], some ErrReplicatedToErasureCoded)
      ∧ replicatedPool1.ValidateUpdate erasureCodedPool1
        = ([], some ErrErasureCodedToReplicated) :=
  ⟨(strategy_change_rejected erasureCodedPool1 replicatedPool1 (by decide) (by decide)).1
      (by decide) (by decide),
    (strategy_change_rejected replicatedPool1 erasureCodedPool1 (by decide) (by decide)).2
      (by decide) (by decide)⟩

/-! ## Name resolution and accepted pools -/

/-- An accepted pool whose target size ratio is not NaN has replication or erasure
coding configured. -/
theorem some_strategy_of_accepted (p : CephBlockPool)
    (hord : p.Spec.Replicated.TargetSizeRatio.isOrdered = true)
    (hacc : p.ValidateCreate.2 = none) :
    (p.Spec.Replicated.Size > 0
        ∨ Float64.gt p.Spec.Replicated.TargetSizeRatio Float64.zero = true)
      ∨ (p.Spec.ErasureCoded.CodingChunks > 0 ∨ p.Spec.ErasureCoded.DataChunks > 0) := by
  rw [ValidateCreate_chain] at hacc
  simp only [] at hacc
  by_contra hnone
  have hsize : p.Spec.Replicated.Size = 0 := by omega
  have hcc : p.Spec.ErasureCoded.CodingChunks = 0 := by omega
  have hdc : p.Spec.ErasureCoded.DataChunks = 0 := by omega
  have hgt : Float64.gt p.Spec.Replicated.TargetSizeRatio Float64.zero = false := by
    cases hg : Float64.gt p.Spec.Replicated.TargetSizeRatio Float64.zero
    · rfl
    · exact absurd (Or.inl (Or.inr hg)) hnone
  have hle := Float64.le_zero_of_not_gt _ hord hgt
  rw [if_neg (by omega), if_pos ⟨hcc, hdc, hle, hsize⟩] at hacc
  exact absurd hacc (by simp)

/-- C11: `ToNamedPoolSpec` takes the spec-level name when it is not empty and the name
of the owning resource when it is empty, and carries the embedded `PoolSpec` over
unchanged. -/
theorem to_named_pool_spec (p : CephBlockPool) :
    (p.Spec.Name ≠ "" → p.ToNamedPoolSpec.Name = p.Spec.Name)
      ∧ (p.Spec.Name = "" → p.ToNamedPoolSpec.Name = p.Name)
      ∧ p.ToNamedPoolSpec.toPoolSpec = p.Spec.toPoolSpec := by
  refine ⟨fun h => ?_, fun h => ?_, rfl⟩
  · simp only [CephBlockPool.ToNamedPoolSpec, if_neg h]
  · simp only [CephBlockPool.ToNamedPoolSpec, if_pos h]

/-- C11, at `ecpool` (spec-level name set) and at the resource `pool1` without one. -/
theorem to_named_pool_spec_witness :
    ecpool.ToNamedPoolSpec.Name = ecpool.Spec.Name
      ∧ unnamedPool1.ToNamedPoolSpec.Name = unnamedPool1.Name :=
  ⟨(to_named_pool_spec ecpool).1 (by decide), (to_named_pool_spec unnamedPool1).2.1 (by decide)⟩

/-- C12: every pool with `Size > 0` and no erasure-coding field set (`CodingChunks = 0`,
`DataChunks = 0`, empty `Algorithm`) is accepted by `ValidateCreate`, for any target
size ratio and any names, the built-in ones included. -/
theorem replicated_pool_accepted (p : CephBlockPool)
    (hsize : p.Spec.Replicated.Size > 0)
    (hcc : p.Spec.ErasureCoded.CodingChunks = 0)
    (hdc : p.Spec.ErasureCoded.DataChunks = 0)
    (halg : p.Spec.ErasureCoded.Algorithm = "") :
    p.ValidateCreate = ([], none) := by
  rw [ValidateCreate_chain]
  have hany : ¬ (p.Spec.ErasureCoded.CodingChunks > 0 ∨ p.Spec.ErasureCoded.DataChunks > 0
      ∨ p.Spec.ErasureCoded.Algorithm ≠ "") := by
    rintro (h | h | h)
    · omega
    · omega
    · exact h halg
  rw [if_neg (by omega), if_neg (by omega), if_neg (fun h => hany h.1), if_neg (by omega)]

/-- C12, at `pool1` replicated three times. -/
theorem replicated_pool_accepted_witness : replicatedPool1.ValidateCreate = ([], none) :=
  replicated_pool_accepted replicatedPool1 (by decide) (by decide) (by decide) (by decide)

/-- C13: every pool whose spec-level name is not a built-in pool name, with `Size = 0`,
`TargetSizeRatio = 0` and `DataChunks >= 2`, is accepted by `ValidateCreate`, for any
`CodingChunks` and any `Algorithm`. -/
theorem erasure_coded_pool_accepted (p : CephBlockPool)
    (hname : ¬ (p.Spec.Name = "device_health_metrics" ∨ p.Spec.Name = ".mgr"
      ∨ p.Spec.Name = ".nfs"))
    (hsize : p.Spec.Replicated.Size = 0)
    (hratio : Float64.eq p.Spec.Replicated.TargetSizeRatio Float64.zero = true)
    (hdc : p.Spec.ErasureCoded.DataChunks ≥ 2) :
    p.ValidateCreate = ([], none) := by
  rw [ValidateCreate_chain]
  have hgt := Float64.gt_zero_false_of_eq _ hratio
  have hrep : ¬ (p.Spec.Replicated.Size > 0
      ∨ Float64.gt p.Spec.Replicated.TargetSizeRatio Float64.zero = true) := by
    rintro (h | h)
    · omega
    · rw [hgt] at h
      exact absurd h (by decide)
  rw [if_neg (fun h => hname h.1), if_neg (by omega), if_neg (fun h => hrep h.2),
    if_neg (by omega)]

/-- C13, at `ecpool` with 4 data chunks, 2 coding chunks and algorithm `jerasure`. -/
theorem erasure_coded_pool_accepted_witness : ecpool.ValidateCreate = ([], none) :=
  erasure_coded_pool_accepted ecpool (by decide) (by decide) (by decide) (by decide)

/-! ## Firing conditions of the chunk rules -/

/-- C14: the coding-chunks minimum rule never fires: `validatePoolSpec` never returns
`CodingChunksTooLow` (an unsigned `CodingChunks` cannot be below 1 and different from
0), and hence neither `ValidateCreate` nor `ValidateUpdate` returns it. -/
theorem coding_chunks_rule_dead (ps : NamedPoolSpec) (p ocbp : CephBlockPool) :
    validatePoolSpec ps ≠ some ErrCodingChunksTooLow
      ∧ p.ValidateCreate.2 ≠ some ErrCodingChunksTooLow
      ∧ (p.ValidateUpdate ocbp).2 ≠ some ErrCodingChunksTooLow := by
  have hv : ∀ qs : NamedPoolSpec, validatePoolSpec qs ≠ some ErrCodingChunksTooLow := by
    intro qs
    rw [validatePoolSpec_eq]
    split_ifs
    · simp [ErrNoStrategyConfigured, ErrCodingChunksTooLow, errors.New]
    · simp [ErrBothStrategiesConfigured, ErrCodingChunksTooLow, errors.New]
    · simp [ErrDataChunksTooLow, ErrCodingChunksTooLow, errors.New]
    · simp
  have hc : ValidateCephBlockPool p ≠ some ErrCodingChunksTooLow := by
    rw [ValidateCephBlockPool_eq]
    split_ifs
    · simp [ErrReservedPoolErasureCoded, ErrCodingChunksTooLow, errors.Errorf, errors.New]
    · exact hv _
  refine ⟨hv ps, ?_, ?_⟩
  · rw [ValidateCreate_eq]
    exact hc
  · rw [ValidateUpdate_eq]
    cases hval : ValidateCephBlockPool p with
    | some err =>
      simp only []
      intro h
      exact hc (hval.trans h)
    | none =>
      simp only []
      split_ifs
      · simp [ErrImmutableNameChanged, ErrCodingChunksTooLow, errors.New]
      · simp [ErrReplicatedToErasureCoded, ErrCodingChunksTooLow, errors.New]
      · simp [ErrErasureCodedToReplicated, ErrCodingChunksTooLow, errors.New]
      · simp

/-- The data-chunks rule of `validatePoolSpec` fires exactly when `Size = 0`,
`TargetSizeRatio == 0` and `DataChunks = 1`. -/
theorem validatePoolSpec_dataChunks_iff (ps : NamedPoolSpec) :
    validatePoolSpec ps = some ErrDataChunksTooLow
      ↔ ps.Replicated.Size = 0
        ∧ Float64.eq ps.Replicated.TargetSizeRatio Float64.zero = true
        ∧ ps.ErasureCoded.DataChunks = 1 := by
  rw [validatePoolSpec_eq]
  split_ifs with h1 h2 h3
  · constructor
    · intro h
      simp [ErrNoStrategyConfigured, ErrDataChunksTooLow, errors.New] at h
    · rintro ⟨-, -, hdc⟩
      omega
  · constructor
    · intro h
      simp [ErrBothStrategiesConfigured, ErrDataChunksTooLow, errors.New] at h
    · rintro ⟨hsize, hratio, -⟩
      have hgt := Float64.gt_zero_false_of_eq _ hratio
      rcases h2.2 with h | h
      · omega
      · rw [hgt] at h
        exact absurd h (by decide)
  · exact ⟨fun _ => h3, fun _ => rfl⟩
  · constructor
    · intro h
      simp at h
    · intro h
      exact absurd h h3

/-- C15: `validatePoolSpec` returns `DataChunksTooLow` if and only if `Size = 0`,
`TargetSizeRatio` is equal to zero (not merely non-positive) and `DataChunks = 1`; and
whether it does is unchanged by replacing the name, the algorithm and `CodingChunks`. -/
theorem data_chunks_rule_iff (ps : NamedPoolSpec) :
    (validatePoolSpec ps = some ErrDataChunksTooLow
        ↔ ps.Replicated.Size = 0
          ∧ Float64.eq ps.Replicated.TargetSizeRatio Float64.zero = true
          ∧ ps.ErasureCoded.DataChunks = 1)
      ∧ ∀ (name alg : String) (cc : Nat),
        (validatePoolSpec
            { ps with
              Name := name
              ErasureCoded := { ps.ErasureCoded with CodingChunks := cc, Algorithm := alg } }
            = some ErrDataChunksTooLow
          ↔ validatePoolSpec ps = some ErrDataChunksTooLow) := by
  refine ⟨validatePoolSpec_dataChunks_iff ps, fun name alg cc => ?_⟩
  rw [validatePoolSpec_dataChunks_iff, validatePoolSpec_dataChunks_iff]

/-! ## Updates between valid pools -/

/-- The propositional core of an accepted update between valid pools: `e`, `a`, `r` say
that chunks, algorithm and replication are set in the candidate, and `e'`, `a'`, `r'`
the same for the previous pool. -/
theorem strategies_agree (e a r e' a' r' : Prop)
    (hp1 : r ∨ e) (hp2 : ¬ ((e ∨ a) ∧ r)) (ho1 : r' ∨ e') (ho2 : ¬ ((e' ∨ a') ∧ r'))
    (h2 : ¬ ((e ∨ a) ∧ r')) (h3 : ¬ (r ∧ (e' ∨ a'))) :
    (e ↔ e') ∧ (r ↔ r') := by
  tauto

/-- C16, as stated, fails when the target size ratio is NaN: the candidate whose only
set field is a NaN ratio passes create validation with no strategy configured, and its
update over the valid replicated `pool1` is accepted although replication is configured
in the previous object only. -/
theorem update_nan_ratio_drops_replication :
    nanRatioPool.ValidateUpdate replicatedPool1 = ([], none)
      ∧ replicatedPool1.ValidateCreate.2 = none
      ∧ ¬ (nanRatioPool.Spec.Replicated.Size > 0
        ∨ Float64.gt nanRatioPool.Spec.Replicated.TargetSizeRatio Float64.zero = true)
      ∧ (replicatedPool1.Spec.Replicated.Size > 0
        ∨ Float64.gt replicatedPool1.Spec.Replicated.TargetSizeRatio Float64.zero = true) := by
  decide

/-- C16, amended: for every candidate and previous pool whose target size ratios are not
NaN, if `ValidateUpdate` accepts the update and `ValidateCreate` accepts the previous
pool, then the candidate has erasure coding configured iff the previous pool has, and
replication configured iff the previous pool has. -/
theorem update_keeps_strategy (p ocbp : CephBlockPool)
    (hordp : p.Spec.Replicated.TargetSizeRatio.isOrdered = true)
    (hordo : ocbp.Spec.Replicated.TargetSizeRatio.isOrdered = true)
    (hupd : (p.ValidateUpdate ocbp).2 = none)
    (hprev : ocbp.ValidateCreate.2 = none) :
    ((p.Spec.ErasureCoded.CodingChunks > 0 ∨ p.Spec.ErasureCoded.DataChunks > 0)
        ↔ (ocbp.Spec.ErasureCoded.CodingChunks > 0 ∨ ocbp.Spec.ErasureCoded.DataChunks > 0))
      ∧ ((p.Spec.Replicated.Size > 0
          ∨ Float64.gt p.Spec.Replicated.TargetSizeRatio Float64.zero = true)
        ↔ (ocbp.Spec.Replicated.Size > 0
          ∨ Float64.gt ocbp.Spec.Replicated.TargetSizeRatio Float64.zero = true)) := by
  rw [ValidateUpdate_eq] at hupd
  cases hval : ValidateCephBlockPool p with
  | some err =>
    rw [hval] at hupd
    exact absurd hupd (by simp)
  | none =>
    rw [hval] at hupd
    simp only [] at hupd
    have hacc : p.ValidateCreate.2 = none := by
      rw [ValidateCreate_eq]
      exact hval
    have hp1 := some_strategy_of_accepted p hordp hacc
    have hp2 := not_both_of_accepted p hacc
    have ho1 := some_strategy_of_accepted ocbp hordo hprev
    have ho2 := not_both_of_accepted ocbp hprev
    split_ifs at hupd with h1 h2 h3
    rw [← or_assoc] at hp2 ho2 h2 h3
    exact strategies_agree _ _ _ _ _ _ hp1 hp2 ho1 ho2 h2 h3

/-- C16 amended, at two updates that change the pool: `pool1` from replication size 3
to size 2, and `pool1` from 4 + 2 chunks to 5 + 2 chunks.  Both are accepted, the first
stays replicated and not erasure coded, the second erasure coded and not replicated. -/
theorem update_keeps_strategy_witness :
    (replicatedPool1Size2 ≠ replicatedPool1
        ∧ (replicatedPool1Size2.ValidateUpdate replicatedPool1).2 = none
        ∧ replicatedPool1.ValidateCreate.2 = none
        ∧ ((replicatedPool1Size2.Spec.ErasureCoded.CodingChunks > 0
              ∨ replicatedPool1Size2.Spec.ErasureCoded.DataChunks > 0)
            ↔ (replicatedPool1.Spec.ErasureCoded.CodingChunks > 0
              ∨ replicatedPool1.Spec.ErasureCoded.DataChunks > 0))
          ∧ ((replicatedPool1Size2.Spec.Replicated.Size > 0
              ∨ Float64.gt replicatedPool1Size2.Spec.Replicated.TargetSizeRatio Float64.zero
                = true)
            ↔ (replicatedPool1.Spec.Replicated.Size > 0
              ∨ Float64.gt replicatedPool1.Spec.Replicated.TargetSizeRatio Float64.zero
                = true)))
      ∧ (erasureCodedPool1Wide ≠ erasureCodedPool1
        ∧ (erasureCodedPool1Wide.ValidateUpdate erasureCodedPool1).2 = none
        ∧ erasureCodedPool1.ValidateCreate.2 = none
        ∧ ((erasureCodedPool1Wide.Spec.ErasureCoded.CodingChunks > 0
              ∨ erasureCodedPool1Wide.Spec.ErasureCoded.DataChunks > 0)
            ↔ (erasureCodedPool1.Spec.ErasureCoded.CodingChunks > 0
              ∨ erasureCodedPool1.Spec.ErasureCoded.DataChunks > 0))
          ∧ ((erasureCodedPool1Wide.Spec.Replicated.Size > 0
              ∨ Float64.gt erasureCodedPool1Wide.Spec.Replicated.TargetSizeRatio Float64.zero
                = true)
            ↔ (erasureCodedPool1.Spec.Replicated.Size > 0
              ∨ Float64.gt erasureCodedPool1.Spec.Replicated.TargetSizeRatio Float64.zero
                = true))) :=
  ⟨⟨by decide, by decide, by decide,
      update_keeps_strategy replicatedPool1Size2 replicatedPool1 (by decide) (by decide)
        (by decide) (by decide)⟩,
    ⟨by decide, by decide, by decide,
      update_keeps_strategy erasureCodedPool1Wide erasureCodedPool1 (by decide) (by decide)
        (by decide) (by decide)⟩⟩

/-- C17: an update that changes nothing is accepted: for every pool that
`ValidateCreate` accepts, `ValidateUpdate` with the same pool as previous object
accepts. -/
theorem noop_update_accepted (p : CephBlockPool) (hacc : p.ValidateCreate.2 = none) :
    p.ValidateUpdate p = ([], none) := by
  have hnot := not_both_of_accepted p hacc
  rw [ValidateCreate_eq] at hacc
  simp only [] at hacc
  rw [ValidateUpdate_eq, hacc]
  simp only []
  rw [if_neg (fun h => h rfl), if_neg hnot, if_neg (fun h => hnot ⟨h.2, h.1⟩)]

/-- C17, at `ecpool`. -/
theorem noop_update_accepted_witness : ecpool.ValidateUpdate ecpool = ([], none) :=
  noop_update_accepted ecpool (by decide)

/-! ## Order of the checks -/

/-- The three checks of `validatePoolSpec` exclude each other pairwise. -/
theorem checks_exclusive (ps : NamedPoolSpec) :
    ¬ ((ps.ErasureCoded.CodingChunks ≤ 0 ∧ ps.ErasureCoded.DataChunks ≤ 0
          ∧ Float64.le ps.Replicated.TargetSizeRatio Float64.zero = true
          ∧ ps.Replicated.Size ≤ 0)
        ∧ ((ps.ErasureCoded.CodingChunks > 0 ∨ ps.ErasureCoded.DataChunks > 0
            ∨ ps.ErasureCoded.Algorithm ≠ "")
          ∧ (ps.Replicated.Size > 0
            ∨ Float64.gt ps.Replicated.TargetSizeRatio Float64.zero = true)))
      ∧ ¬ ((ps.ErasureCoded.CodingChunks ≤ 0 ∧ ps.ErasureCoded.DataChunks ≤ 0
          ∧ Float64.le ps.Replicated.TargetSizeRatio Float64.zero = true
          ∧ ps.Replicated.Size ≤ 0)
        ∧ (ps.Replicated.Size = 0
          ∧ Float64.eq ps.Replicated.TargetSizeRatio Float64.zero = true
          ∧ ps.ErasureCoded.DataChunks = 1))
      ∧ ¬ (((ps.ErasureCoded.CodingChunks > 0 ∨ ps.ErasureCoded.DataChunks > 0
            ∨ ps.ErasureCoded.Algorithm ≠ "")
          ∧ (ps.Replicated.Size > 0
            ∨ Float64.gt ps.Replicated.TargetSizeRatio Float64.zero = true))
        ∧ (ps.Replicated.Size = 0
          ∧ Float64.eq ps.Replicated.TargetSizeRatio Float64.zero = true
          ∧ ps.ErasureCoded.DataChunks = 1)) := by
  refine ⟨?_, ?_, ?_⟩
  · rintro ⟨⟨-, -, hle, hsize⟩, -, hrep⟩
    rcases hrep with h | h
    · omega
    · rw [Float64.le_zero_false_of_gt _ h] at hle
      exact absurd hle (by decide)
  · rintro ⟨⟨-, hdc, -, -⟩, -, -, hone⟩
    omega
  · rintro ⟨⟨-, hrep⟩, hsize, hratio, -⟩
    rcases hrep with h | h
    · omega
    · rw [Float64.gt_zero_false_of_eq _ hratio] at h
      exact absurd h (by decide)

/-- The check `noStrategy` falls through when its condition fails. -/
theorem PoolCheck.run_noStrategy_of_not (ps : NamedPoolSpec)
    (h : ¬ (ps.ErasureCoded.CodingChunks ≤ 0 ∧ ps.ErasureCoded.DataChunks ≤ 0
      ∧ Float64.le ps.Replicated.TargetSizeRatio Float64.zero = true
      ∧ ps.Replicated.Size ≤ 0)) :
    PoolCheck.run .noStrategy ps = none := by
  simp only [PoolCheck.run, if_neg h]

/-- The check `bothStrategies` falls through when its condition fails. -/
theorem PoolCheck.run_bothStrategies_of_not (ps : NamedPoolSpec)
    (h : ¬ ((ps.ErasureCoded.CodingChunks > 0 ∨ ps.ErasureCoded.DataChunks > 0
        ∨ ps.ErasureCoded.Algorithm ≠ "")
      ∧ (ps.Replicated.Size > 0
        ∨ Float64.gt ps.Replicated.TargetSizeRatio Float64.zero = true))) :
    PoolCheck.run .bothStrategies ps = none := by
  simp only [PoolCheck.run, ← ite_and, if_neg h]

/-- The check `chunkMinimum` falls through when its condition fails. -/
theorem PoolCheck.run_chunkMinimum_of_not (ps : NamedPoolSpec)
    (h : ¬ (ps.Replicated.Size = 0
      ∧ Float64.eq ps.Replicated.TargetSizeRatio Float64.zero = true
      ∧ ps.ErasureCoded.DataChunks = 1)) :
    PoolCheck.run .chunkMinimum ps = none := by
  simp only [PoolCheck.run]
  by_cases h1 : ps.Replicated.Size = 0
      ∧ Float64.eq ps.Replicated.TargetSizeRatio Float64.zero = true
  · have hdc : ps.ErasureCoded.DataChunks ≠ 1 := fun hd => h ⟨h1.1, h1.2, hd⟩
    rw [if_pos h1, if_neg (by omega), if_neg (by omega)]
  · rw [if_neg h1]

/-- At most one of three results is an error, so the order of evaluation is
immaterial. -/
theorem validatePoolSpecInOrder_perm (ps : NamedPoolSpec) (order : List PoolCheck)
    (hperm : order.Perm [.noStrategy, .bothStrategies, .chunkMinimum]) :
    validatePoolSpecInOrder order ps
      = validatePoolSpecInOrder [.noStrategy, .bothStrategies, .chunkMinimum] ps := by
  obtain ⟨hnb, hnd, hbd⟩ := checks_exclusive ps
  have h12 : PoolCheck.run .noStrategy ps = none ∨ PoolCheck.run .bothStrategies ps = none := by
    by_cases hn : ps.ErasureCoded.CodingChunks ≤ 0 ∧ ps.ErasureCoded.DataChunks ≤ 0
        ∧ Float64.le ps.Replicated.TargetSizeRatio Float64.zero = true
        ∧ ps.Replicated.Size ≤ 0
    · exact Or.inr (PoolCheck.run_bothStrategies_of_not ps (fun hb => hnb ⟨hn, hb⟩))
    · exact Or.inl (PoolCheck.run_noStrategy_of_not ps hn)
  have h13 : PoolCheck.run .noStrategy ps = none ∨ PoolCheck.run .chunkMinimum ps = none := by
    by_cases hn : ps.ErasureCoded.CodingChunks ≤ 0 ∧ ps.ErasureCoded.DataChunks ≤ 0
        ∧ Float64.le ps.Replicated.TargetSizeRatio Float64.zero = true
        ∧ ps.Replicated.Size ≤ 0
    · exact Or.inr (PoolCheck.run_chunkMinimum_of_not ps (fun hd => hnd ⟨hn, hd⟩))
    · exact Or.inl (PoolCheck.run_noStrategy_of_not ps hn)
  have h23 : PoolCheck.run .bothStrategies ps = none
      ∨ PoolCheck.run .chunkMinimum ps = none := by
    by_cases hb : (ps.ErasureCoded.CodingChunks > 0 ∨ ps.ErasureCoded.DataChunks > 0
          ∨ ps.ErasureCoded.Algorithm ≠ "")
        ∧ (ps.Replicated.Size > 0
          ∨ Float64.gt ps.Replicated.TargetSizeRatio Float64.zero = true)
    · exact Or.inr (PoolCheck.run_chunkMinimum_of_not ps (fun hd => hbd ⟨hb, hd⟩))
    · exact Or.inl (PoolCheck.run_bothStrategies_of_not ps hb)
  have hlen := hperm.length_eq
  match order, hlen, hperm with
  | [a, b, c], _, hperm =>
    cases a <;> cases b <;> cases c <;>
      first
      | exact absurd hperm (by decide)
      | rfl
      | (simp only [validatePoolSpecInOrder]
         generalize PoolCheck.run .noStrategy ps = x at h12 h13 ⊢
         generalize PoolCheck.run .bothStrategies ps = y at h12 h23 ⊢
         generalize PoolCheck.run .chunkMinimum ps = z at h13 h23 ⊢
         cases x <;> cases y <;> cases z <;> first | rfl | simp_all)

/-- Running the three checks in source order is `validatePoolSpec`. -/
theorem validatePoolSpecInOrder_source (ps : NamedPoolSpec) :
    validatePoolSpecInOrder [.noStrategy, .bothStrategies, .chunkMinimum] ps
      = validatePoolSpec ps := by
  simp only [validatePoolSpecInOrder, PoolCheck.run, validatePoolSpec, Id.run, pure, bind]
  split_ifs <;> rfl

/-- C18: the three rejection conditions of `validatePoolSpec` (no strategy, both
strategies, a single data chunk without replication) exclude each other pairwise; hence
every variant that evaluates the three checks in another order returns what
`validatePoolSpec` returns; and the built-in pool check of `ValidateCephBlockPool` does
overlap with one of them, as for `.mgr` with both strategies set. -/
theorem checks_order_immaterial (ps : NamedPoolSpec) :
    (¬ ((ps.ErasureCoded.CodingChunks ≤ 0 ∧ ps.ErasureCoded.DataChunks ≤ 0
            ∧ Float64.le ps.Replicated.TargetSizeRatio Float64.zero = true
            ∧ ps.Replicated.Size ≤ 0)
          ∧ ((ps.ErasureCoded.CodingChunks > 0 ∨ ps.ErasureCoded.DataChunks > 0
              ∨ ps.ErasureCoded.Algorithm ≠ "")
            ∧ (ps.Replicated.Size > 0
              ∨ Float64.gt ps.Replicated.TargetSizeRatio Float64.zero = true)))
        ∧ ¬ ((ps.ErasureCoded.CodingChunks ≤ 0 ∧ ps.ErasureCoded.DataChunks ≤ 0
            ∧ Float64.le ps.Replicated.TargetSizeRatio Float64.zero = true
            ∧ ps.Replicated.Size ≤ 0)
          ∧ (ps.Replicated.Size = 0
            ∧ Float64.eq ps.Replicated.TargetSizeRatio Float64.zero = true
            ∧ ps.ErasureCoded.DataChunks = 1))
        ∧ ¬ (((ps.ErasureCoded.CodingChunks > 0 ∨ ps.ErasureCoded.DataChunks > 0
              ∨ ps.ErasureCoded.Algorithm ≠ "")
            ∧ (ps.Replicated.Size > 0
              ∨ Float64.gt ps.Replicated.TargetSizeRatio Float64.zero = true))
          ∧ (ps.Replicated.Size = 0
            ∧ Float64.eq ps.Replicated.TargetSizeRatio Float64.zero = true
            ∧ ps.ErasureCoded.DataChunks = 1)))
      ∧ (∀ order : List PoolCheck,
          order.Perm [.noStrategy, .bothStrategies, .chunkMinimum] →
          validatePoolSpecInOrder order ps = validatePoolSpec ps)
      ∧ (isBuiltinPoolName mgrBothPool.Spec.Name
          ∧ mgrBothPool.Spec.IsErasureCoded = true
          ∧ validatePoolSpec mgrBothPool.ToNamedPoolSpec
            = some ErrBothStrategiesConfigured) := by
  refine ⟨checks_exclusive ps, fun order hperm => ?_, by decide⟩
  rw [validatePoolSpecInOrder_perm ps order hperm, validatePoolSpecInOrder_source]

/-- C18, at the pool with a single data chunk and the checks in reverse order. -/
theorem checks_order_immaterial_witness :
    validatePoolSpecInOrder [.chunkMinimum, .bothStrategies, .noStrategy]
        oneDataChunkPool.ToNamedPoolSpec
      = validatePoolSpec oneDataChunkPool.ToNamedPoolSpec :=
  (checks_order_immaterial oneDataChunkPool.ToNamedPoolSpec).2.1 _ (by decide)

/-! ## Helper predicates on accepted pools -/

/-- C19: acceptance does not make a helper predicate classify the pool: some accepted
pool (`Size = 0`, `TargetSizeRatio > 0`, no erasure-coding field) has both
`IsReplicated` and `IsErasureCoded` false; whereas on every accepted pool with
`Size > 0` or erasure coding configured exactly one of the two is true. -/
theorem helper_predicates_on_accepted (p : CephBlockPool) :
    (∃ q : CephBlockPool, q.ValidateCreate = ([], none)
        ∧ q.Spec.Replicated.Size = 0
        ∧ Float64.gt q.Spec.Replicated.TargetSizeRatio Float64.zero = true
        ∧ q.Spec.ErasureCoded = { CodingChunks := 0, DataChunks := 0, Algorithm := "" }
        ∧ q.Spec.IsReplicated = false ∧ q.Spec.IsErasureCoded = false)
      ∧ (p.ValidateCreate.2 = none →
          (p.Spec.Replicated.Size > 0
            ∨ p.Spec.ErasureCoded.CodingChunks > 0 ∨ p.Spec.ErasureCoded.DataChunks > 0) →
          Xor' (p.Spec.IsReplicated = true) (p.Spec.IsErasureCoded = true)) := by
  refine ⟨⟨ratioOnlyPool, by decide⟩, fun hacc hsome => ?_⟩
  have hnot := not_both_of_accepted p hacc
  simp only [PoolSpec.IsReplicated, PoolSpec.IsErasureCoded, Xor', Bool.or_eq_true,
    decide_eq_true_eq]
  by_cases hs : p.Spec.Replicated.Size > 0
  · left
    refine ⟨hs, fun hec => hnot ⟨?_, Or.inl hs⟩⟩
    rcases hec with h | h
    · exact Or.inl h
    · exact Or.inr (Or.inl h)
  · right
    refine ⟨?_, hs⟩
    rcases hsome with h | h | h
    · exact absurd h hs
    · exact Or.inl h
    · exact Or.inr h

/-- C19, at `pool1` replicated three times and at `ecpool`. -/
theorem helper_predicates_on_accepted_witness :
    Xor' (replicatedPool1.Spec.IsReplicated = true)
        (replicatedPool1.Spec.IsErasureCoded = true)
      ∧ Xor' (ecpool.Spec.IsReplicated = true) (ecpool.Spec.IsErasureCoded = true) :=
  ⟨(helper_predicates_on_accepted replicatedPool1).2 (by decide) (by decide),
    (helper_predicates_on_accepted ecpool).2 (by decide) (by decide)⟩

end Rook
